import Mathlib

/-!
Shallow embedding of the hotcorners program (src/src/main.rs, src/src/config.rs).

The program installs a low-level mouse hook (`mouse_hook_callback`), which on a
qualifying cold-to-hot transition of the cursor into the `HOT_CORNER` rectangle
sets an atomic flag and unparks a worker thread; the worker (`hot_corner_fn`
wrapped in the loop of `main`) sleeps for `HOT_DELAY`, re-queries the cursor
position, injects `HOT_CORNER_INPUT` if the cursor is still in the corner, then
the loop clears the flag and parks again.

Pure functions are translated directly; the Win32 calls the code makes
(`GetKeyState`, `GetKeyboardState`, `GetCursorPos`, `SendInput`) are modelled by
oracle values passed in, and the observable effects (forwarding the hook event,
storing the flag, unparking, sleeping, injecting, printing) are recorded
explicitly in the result.
-/

/-- Win32 `POINT`: screen coordinates. -/
structure POINT where
  x : Int
  y : Int
deriving DecidableEq, Repr

/-- Win32 `RECT`. -/
structure RECT where
  left : Int
  top : Int
  right : Int
  bottom : Int
deriving DecidableEq, Repr

/-- Modelled from the spec: the platform point-in-rectangle primitive
(`PtInRect`, an OS call, not part of src/). The spec fixes its boundary
semantics: inclusive on left/top, exclusive on right/bottom. -/
def PtInRect (r : RECT) (p : POINT) : Bool :=
  r.left ≤ p.x && p.x < r.right && r.top ≤ p.y && p.y < r.bottom

/-- Constant `HOT_CORNER` from main.rs: the hot-corner rectangle. -/
def HOT_CORNER : RECT := ⟨0, 0, 20, 20⟩

/-- Virtual-key code `VK_LBUTTON`. -/
def VK_LBUTTON : Nat := 0x01
/-- Virtual-key code `VK_RBUTTON`. -/
def VK_RBUTTON : Nat := 0x02
/-- Virtual-key code `VK_TAB`. -/
def VK_TAB : Nat := 0x09
/-- Virtual-key code `VK_SHIFT`. -/
def VK_SHIFT : Nat := 0x10
/-- Virtual-key code `VK_CONTROL`. -/
def VK_CONTROL : Nat := 0x11
/-- Virtual-key code `VK_MENU`. -/
def VK_MENU : Nat := 0x12
/-- Virtual-key code `VK_LWIN`. -/
def VK_LWIN : Nat := 0x5B
/-- Virtual-key code `VK_RWIN`. -/
def VK_RWIN : Nat := 0x5C
/-- Message code `WM_MOUSEMOVE`. -/
def WM_MOUSEMOVE : Nat := 0x0200
/-- Flag `KEYEVENTF_KEYUP`. -/
def KEYEVENTF_KEYUP : Nat := 0x2

/-- Win32 `KEYBDINPUT`, the payload of each keyboard `INPUT` entry. -/
structure KEYBDINPUT where
  wVk : Nat
  wScan : Nat
  dwFlags : Nat
  time : Nat
  dwExtraInfo : Nat
deriving DecidableEq, Repr

/-- Constant `HOT_CORNER_INPUT` from main.rs: the fixed 4-event keyboard sequence
(Win down, Tab down, Tab up, Win up). -/
def HOT_CORNER_INPUT : List KEYBDINPUT :=
  [ ⟨VK_LWIN, 0, 0, 0, 0⟩,
    ⟨VK_TAB, 0, 0, 0, 0⟩,
    ⟨VK_TAB, 0, KEYEVENTF_KEYUP, 0, 0⟩,
    ⟨VK_LWIN, 0, KEYEVENTF_KEYUP, 0, 0⟩ ]

/-- Function `keydown` from main.rs: a key-state byte denotes pressed when its high bit
is set. -/
def keydown (key : Nat) : Bool :=
  key &&& 0x80 ≠ 0

/-- A mouse-hook notification: the `w_param` message code and the point carried
by the `MSLLHOOKSTRUCT`. -/
structure MouseEvent where
  wmEvt : Nat
  pt : POINT
deriving DecidableEq, Repr

/-- Oracle for the OS-state queries the callback makes: the two `GetKeyState`
results (signed, pressed iff negative) and the `GetKeyboardState` result
(`none` models a failed query; `some ks` gives the 256-byte state array as a
function from index to byte). -/
structure OsState where
  lbuttonState : Int
  rbuttonState : Int
  keyboardState : Option (Nat → Nat)

/-- The detector's mutable state: the `STILL_HOT` static and the shared atomic
flag (`HOT_CORNER_THREAD_FLAG`). -/
structure DetectorState where
  stillHot : Bool
  flag : Bool
deriving DecidableEq, Repr

/-- Observable outcome of one callback invocation: the updated state, whether
the flag was stored true this call (`raised`), whether the worker thread was
unparked, and whether the event was forwarded via `CallNextHookEx`. -/
structure DetectorOutput where
  state : DetectorState
  raised : Bool
  unparked : Bool
  forwarded : Bool
deriving DecidableEq, Repr

/-- The modifier-guard check of main.rs lines 217-227: query the keyboard
state; on success test Shift, Ctrl, Alt, LWin, RWin; on failure the guard does
not trigger. -/
def modifierGuard : Option (Nat → Nat) → Bool
  | some ks =>
      keydown (ks VK_SHIFT) || keydown (ks VK_CONTROL) || keydown (ks VK_MENU)
        || keydown (ks VK_LWIN) || keydown (ks VK_RWIN)
  | none => false

/-- Function `mouse_hook_callback` from main.rs lines 188-236, with each early
`return CallNextHookEx` branch recorded as a forwarded, unraised output. -/
def mouse_hook_callback (evt : MouseEvent) (os : OsState) (s : DetectorState) :
    DetectorOutput :=
  if evt.wmEvt ≠ WM_MOUSEMOVE then
    ⟨s, false, false, true⟩
  else if ¬ PtInRect HOT_CORNER evt.pt then
    ⟨⟨false, s.flag⟩, false, false, true⟩
  else if s.stillHot then
    ⟨s, false, false, true⟩
  else if os.lbuttonState < 0 || os.rbuttonState < 0 then
    ⟨s, false, false, true⟩
  else if modifierGuard os.keyboardState then
    ⟨s, false, false, true⟩
  else
    ⟨⟨true, true⟩, true, true, true⟩

/-- Run the detector over a list of (event, OS-oracle) pairs, returning the
final state and the number of times the flag was raised. -/
def runDetector (s : DetectorState) : List (MouseEvent × OsState) → DetectorState × Nat
  | [] => (s, 0)
  | (e, os) :: rest =>
      let o := mouse_hook_callback e os s
      let r := runDetector o.state rest
      (r.1, (if o.raised then 1 else 0) + r.2)

/-- A movement event inside the hot corner. -/
def insideMove (e : MouseEvent) : Prop :=
  e.wmEvt = WM_MOUSEMOVE ∧ PtInRect HOT_CORNER e.pt = true

/-- No guard triggers in this OS state: neither mouse button reads negative
and the modifier guard is clear. -/
def noGuard (os : OsState) : Prop :=
  ¬ os.lbuttonState < 0 ∧ ¬ os.rbuttonState < 0 ∧ modifierGuard os.keyboardState = false

/-- A qualifying entry event: a movement event inside the region with no guard
triggered. -/
def qualifying (e : MouseEvent) (os : OsState) : Prop :=
  insideMove e ∧ noGuard os

/-- Observable actions of the worker thread's loop body. -/
inductive WAct where
  | sleep (millis : Nat)
  | queryPos
  | inject (seq : List KEYBDINPUT)
  | diag (msg : String)
  | clearFlag
  | park
deriving DecidableEq, Repr

/-- Function `hot_corner_fn` from main.rs lines 163-182, as the list of actions it
performs: sleep the dwell delay, query the cursor position (`posResult`,
`none` on failure), and if the position is inside `HOT_CORNER` call
`SendInput` with `HOT_CORNER_INPUT`; if the platform's acceptance count
(`sendResult`) differs from the 4 events submitted, print a diagnostic. -/
def hot_corner_fn (delay : Nat) (posResult : Option POINT) (sendResult : Nat) :
    List WAct :=
  [WAct.sleep delay, WAct.queryPos] ++
    match posResult with
    | none => []
    | some pt =>
        if PtInRect HOT_CORNER pt then
          WAct.inject HOT_CORNER_INPUT ::
            (if sendResult ≠ HOT_CORNER_INPUT.length then
              [WAct.diag "Failed to send input"]
            else [])
        else []

/-- One iteration of the worker loop in `main` (main.rs lines 115-121), from
the moment it is woken: run `hot_corner_fn`, store false to the flag, and park
again at the top of the loop. -/
def workerIter (delay : Nat) (posResult : Option POINT) (sendResult : Nat) :
    List WAct :=
  hot_corner_fn delay posResult sendResult ++ [WAct.clearFlag, WAct.park]

/-- The injected sequences occurring in a worker action trace, in order. -/
def injectsOf : List WAct → List (List KEYBDINPUT)
  | [] => []
  | WAct.inject seq :: rest => seq :: injectsOf rest
  | _ :: rest => injectsOf rest

/-- The sleep durations occurring in a worker action trace, in order. -/
def sleepsOf : List WAct → List Nat
  | [] => []
  | WAct.sleep d :: rest => d :: sleepsOf rest
  | _ :: rest => sleepsOf rest

/-- The suffix of a worker trace strictly after the cursor-position query. -/
def afterQuery : List WAct → List WAct
  | [] => []
  | WAct.queryPos :: rest => rest
  | _ :: rest => afterQuery rest

/-- Struct `Config` from config.rs: one optional numeric field `delay`. -/
structure Config where
  delay : Option Nat
deriving DecidableEq, Repr

/-- Initial value of the `HOT_DELAY` static in main.rs: 100 milliseconds. -/
def HOT_DELAY_INIT : Nat := 100

/-- The dwell delay in effect after the startup of `main` (main.rs lines 127-129):
the config's delay when present, otherwise the initial 100 ms. -/
def effectiveDelay (c : Config) : Nat :=
  match c.delay with
  | some d => d
  | none => HOT_DELAY_INIT

/-- Observable steps of the startup sequence of `main` (main.rs lines 106-152). -/
inductive StartupStep where
  | initFlag
  | spawnWorker
  | setDelay (d : Nat)
  | abortStep (msg : String)
  | setHook
  | regHotkey
  | runLoop
deriving DecidableEq, Repr

/-- Startup of `main` (main.rs lines 106-143) as a step trace: init the flag
cell, spawn the worker, read config.toml (`readResult`, error models an
unreadable file), parse it (`parseResult`, error models malformed TOML) — each
`.unwrap()` aborting the startup on error — then set `HOT_DELAY` if the config
carries a delay, install the mouse hook, register the exit hotkey, and enter
the message loop. -/
def mainStartup (readResult : Except String String)
    (parseResult : String → Except String Config) : List StartupStep :=
  [StartupStep.initFlag, StartupStep.spawnWorker] ++
    match readResult with
    | Except.error e => [StartupStep.abortStep e]
    | Except.ok s =>
        match parseResult s with
        | Except.error e => [StartupStep.abortStep e]
        | Except.ok cfg =>
            (match cfg.delay with
             | some d => [StartupStep.setDelay d]
             | none => []) ++
              [StartupStep.setHook, StartupStep.regHotkey, StartupStep.runLoop]

/-- Labels of observable cross-thread events in the combined system: the
detector storing true to the flag, the worker submitting the input sequence,
and the worker storing false to the flag. -/
inductive Label where
  | raise
  | injSent
  | clear
deriving DecidableEq, Repr

/-- A scheduling step of the combined two-thread system: either the hook
thread processes a mouse event, or the parked worker observes the flag set and
starts running `hot_corner_fn`, or the running worker completes it (with the
given cursor-query and `SendInput` oracle results) and clears the flag. -/
inductive SysAction where
  | evt (e : MouseEvent) (os : OsState)
  | wake
  | finish (posResult : Option POINT) (sendResult : Nat)

/-- Combined state of the two threads: the detector's `STILL_HOT`, the shared
flag, and whether the worker is currently between its wake-up and its clearing
store. -/
structure SysState where
  stillHot : Bool
  flag : Bool
  running : Bool
deriving DecidableEq, Repr

/-- Whether `hot_corner_fn` injects, given its cursor-query result. -/
def injOccurs : Option POINT → Bool
  | some p => PtInRect HOT_CORNER p
  | none => false

/-- One scheduling step of the combined system. The worker wakes only when it
observes the flag true (main.rs line 116); on finishing it stores false to the
flag (line 120) regardless of intervening raises. -/
def sysStep (s : SysState) : SysAction → SysState × List Label
  | SysAction.evt e os =>
      let o := mouse_hook_callback e os ⟨s.stillHot, s.flag⟩
      (⟨o.state.stillHot, o.state.flag, s.running⟩,
        if o.raised then [Label.raise] else [])
  | SysAction.wake =>
      if s.flag ∧ ¬ s.running then (⟨s.stillHot, s.flag, true⟩, []) else (s, [])
  | SysAction.finish pos _ =>
      if s.running then
        (⟨s.stillHot, false, false⟩,
          (if injOccurs pos then [Label.injSent] else []) ++ [Label.clear])
      else (s, [])

/-- Run the combined system over a schedule, collecting the labels in order. -/
def sysRun (s : SysState) : List SysAction → SysState × List Label
  | [] => (s, [])
  | a :: rest =>
      let p := sysStep s a
      let q := sysRun p.1 rest
      (q.1, p.2 ++ q.2)

/-- Whether a label trace contains a raise that happens while an earlier raise
has not yet been followed by a clear (the argument tracks whether a raise is
currently outstanding). -/
def raiseUnclearedAgain : Bool → List Label → Bool
  | _, [] => false
  | _, Label.clear :: rest => raiseUnclearedAgain false rest
  | pending, Label.raise :: rest => pending || raiseUnclearedAgain true rest
  | pending, Label.injSent :: rest => raiseUnclearedAgain pending rest

/-- Whether a worker action is the printing of a diagnostic. -/
def isDiag : WAct → Bool
  | WAct.diag _ => true
  | _ => false

/-! Branch lemmas for the hook callback. -/

/-- A non-movement notification leaves the state unchanged and forwards. -/
theorem hook_not_move (e : MouseEvent) (os : OsState) (s : DetectorState)
    (h : e.wmEvt ≠ WM_MOUSEMOVE) :
    mouse_hook_callback e os s = ⟨s, false, false, true⟩ := by
  simp [mouse_hook_callback, h]

/-- A movement outside the region resets `STILL_HOT` and forwards. -/
theorem hook_outside (e : MouseEvent) (os : OsState) (s : DetectorState)
    (h1 : e.wmEvt = WM_MOUSEMOVE) (h2 : PtInRect HOT_CORNER e.pt = false) :
    mouse_hook_callback e os s = ⟨⟨false, s.flag⟩, false, false, true⟩ := by
  simp [mouse_hook_callback, h1, h2]

/-- A movement inside the region while already hot changes nothing and
forwards. -/
theorem hook_inside_hot (e : MouseEvent) (os : OsState) (s : DetectorState)
    (h1 : e.wmEvt = WM_MOUSEMOVE) (h2 : PtInRect HOT_CORNER e.pt = true)
    (h3 : s.stillHot = true) :
    mouse_hook_callback e os s = ⟨s, false, false, true⟩ := by
  simp [mouse_hook_callback, h1, h2, h3]

/-- A qualifying movement into the region while cold raises the flag, unparks
the worker, sets `STILL_HOT`, and forwards. -/
theorem hook_raise (e : MouseEvent) (os : OsState) (s : DetectorState)
    (h1 : e.wmEvt = WM_MOUSEMOVE) (h2 : PtInRect HOT_CORNER e.pt = true)
    (h3 : s.stillHot = false) (h4 : noGuard os) :
    mouse_hook_callback e os s = ⟨⟨true, true⟩, true, true, true⟩ := by
  obtain ⟨hl, hr, hm⟩ := h4
  simp [mouse_hook_callback, h1, h2, h3, hl, hr, hm]

/-- Splitting a detector run over an appended trace. -/
theorem runDetector_append (s : DetectorState) (t1 t2 : List (MouseEvent × OsState)) :
    runDetector s (t1 ++ t2) =
      ((runDetector (runDetector s t1).1 t2).1,
        (runDetector s t1).2 + (runDetector (runDetector s t1).1 t2).2) := by
  induction t1 generalizing s with
  | nil => simp [runDetector]
  | cons p rest ih =>
      obtain ⟨e, os⟩ := p
      simp [runDetector, ih, Nat.add_assoc]

/-- Once hot, a trace of inside movement events changes nothing and raises
nothing, whatever the button and modifier states are. -/
theorem runDetector_stay (s : DetectorState) (tr : List (MouseEvent × OsState))
    (h : s.stillHot = true) (hall : ∀ p ∈ tr, insideMove p.1) :
    runDetector s tr = (s, 0) := by
  induction tr with
  | nil => rfl
  | cons p rest ih =>
      obtain ⟨e, os⟩ := p
      obtain ⟨h1, h2⟩ := hall (e, os) (List.mem_cons_self _ _)
      simp [runDetector, hook_inside_hot e os s h1 h2 h,
        ih fun q hq => hall q (List.mem_cons_of_mem _ hq)]

/-- C6: in every branch of the Edge Detector callback — non-movement event,
point outside the region, already hot, button guard, modifier guard, and the
signaling branch — the event is forwarded to the next handler in the hook
chain; no branch consumes the event. -/
theorem C6_always_forwards :
    ∀ (e : MouseEvent) (os : OsState) (s : DetectorState),
      (mouse_hook_callback e os s).forwarded = true := by
  intro e os s
  unfold mouse_hook_callback
  split
  · rfl
  split
  · rfl
  split
  · rfl
  split
  · rfl
  split
  · rfl
  · rfl

/-- C4: on a movement event inside the region in state cold, if a mouse button
reads pressed or the keyboard-state query reports one of Shift, Ctrl, Alt,
LWin, RWin down, the detector neither transitions to hot nor raises the
signal, and forwards the event unchanged. -/
theorem C4_guards_suppress (e : MouseEvent) (os : OsState) (s : DetectorState)
    (h1 : e.wmEvt = WM_MOUSEMOVE) (h2 : PtInRect HOT_CORNER e.pt = true)
    (h3 : s.stillHot = false)
    (hg : os.lbuttonState < 0 ∨ os.rbuttonState < 0 ∨
      modifierGuard os.keyboardState = true) :
    mouse_hook_callback e os s = ⟨s, false, false, true⟩ := by
  rcases hg with h | h | h
  · simp [mouse_hook_callback, h1, h2, h3, h]
  · simp [mouse_hook_callback, h1, h2, h3, h]
  · unfold mouse_hook_callback
    simp [h1, h2, h3, h]

/-- Witness for C4 at a concrete input: primary button pressed inside the
corner while cold forwards unchanged with no transition. -/
theorem C4_guards_suppress_witness :
    mouse_hook_callback ⟨WM_MOUSEMOVE, ⟨5, 5⟩⟩ ⟨-1, 0, none⟩ ⟨false, false⟩ =
      ⟨⟨false, false⟩, false, false, true⟩ :=
  C4_guards_suppress _ _ _ rfl rfl rfl (Or.inl (by decide))

/-- C7: if the keyboard-state query fails on a movement event inside the
region in state cold with no mouse button pressed, the detector proceeds as if
no modifier is pressed: it transitions to hot and raises the signal. -/
theorem C7_keyboard_query_failure_raises (e : MouseEvent) (os : OsState)
    (s : DetectorState)
    (h1 : e.wmEvt = WM_MOUSEMOVE) (h2 : PtInRect HOT_CORNER e.pt = true)
    (h3 : s.stillHot = false)
    (h4 : ¬ os.lbuttonState < 0) (h5 : ¬ os.rbuttonState < 0)
    (h6 : os.keyboardState = none) :
    mouse_hook_callback e os s = ⟨⟨true, true⟩, true, true, true⟩ :=
  hook_raise e os s h1 h2 h3 ⟨h4, h5, by simp [h6, modifierGuard]⟩

/-- Witness for C7 at a concrete input. -/
theorem C7_keyboard_query_failure_raises_witness :
    mouse_hook_callback ⟨WM_MOUSEMOVE, ⟨5, 5⟩⟩ ⟨0, 0, none⟩ ⟨false, false⟩ =
      ⟨⟨true, true⟩, true, true, true⟩ :=
  C7_keyboard_query_failure_raises _ _ _ rfl rfl rfl (by decide) (by decide) rfl

/-- C1: starting cold, a qualifying entry into the region followed by any
number of further inside-the-region movement events raises the signal exactly
once; it stays at one raise however many further inside events follow, and a
second raise happens only after an event outside the region followed by a new
qualifying entry. -/
theorem C1_signals_exactly_once (e eOut e2 : MouseEvent)
    (os osOut os2 : OsState) (rest after : List (MouseEvent × OsState))
    (hq : qualifying e os)
    (hrest : ∀ p ∈ rest, insideMove p.1)
    (hafter : ∀ p ∈ after, insideMove p.1)
    (houtMove : eOut.wmEvt = WM_MOUSEMOVE)
    (houtPt : PtInRect HOT_CORNER eOut.pt = false)
    (hq2 : qualifying e2 os2) :
    (runDetector ⟨false, false⟩ ((e, os) :: rest)).2 = 1 ∧
    (runDetector ⟨false, false⟩ ((e, os) :: (rest ++ after))).2 = 1 ∧
    (runDetector ⟨false, false⟩
      ((e, os) :: (rest ++ [(eOut, osOut), (e2, os2)]))).2 = 2 := by
  have hentry := hook_raise e os ⟨false, false⟩ hq.1.1 hq.1.2 rfl hq.2
  have hstayr := runDetector_stay ⟨true, true⟩ rest rfl hrest
  refine ⟨?_, ?_, ?_⟩
  · simp [runDetector, hentry, hstayr]
  · have hall : ∀ p ∈ rest ++ after, insideMove p.1 := by
      intro p hp
      rcases List.mem_append.mp hp with h | h
      · exact hrest p h
      · exact hafter p h
    simp [runDetector, hentry, runDetector_stay ⟨true, true⟩ (rest ++ after) rfl hall]
  · simp [runDetector, hentry, runDetector_append, hstayr,
      hook_outside eOut osOut ⟨true, true⟩ houtMove houtPt,
      hook_raise e2 os2 ⟨false, true⟩ hq2.1.1 hq2.1.2 rfl hq2.2]

/-- Witness for C1 at concrete inputs: enter at (5,5), linger at (6,6), exit
at (100,100), re-enter at (5,5). -/
theorem C1_signals_exactly_once_witness :
    (runDetector ⟨false, false⟩
      [(⟨WM_MOUSEMOVE, ⟨5, 5⟩⟩, ⟨0, 0, none⟩)]).2 = 1 ∧
    (runDetector ⟨false, false⟩
      [(⟨WM_MOUSEMOVE, ⟨5, 5⟩⟩, ⟨0, 0, none⟩),
       (⟨WM_MOUSEMOVE, ⟨6, 6⟩⟩, ⟨0, 0, none⟩)]).2 = 1 ∧
    (runDetector ⟨false, false⟩
      [(⟨WM_MOUSEMOVE, ⟨5, 5⟩⟩, ⟨0, 0, none⟩),
       (⟨WM_MOUSEMOVE, ⟨100, 100⟩⟩, ⟨0, 0, none⟩),
       (⟨WM_MOUSEMOVE, ⟨5, 5⟩⟩, ⟨0, 0, none⟩)]).2 = 2 :=
  C1_signals_exactly_once
    ⟨WM_MOUSEMOVE, ⟨5, 5⟩⟩ ⟨WM_MOUSEMOVE, ⟨100, 100⟩⟩ ⟨WM_MOUSEMOVE, ⟨5, 5⟩⟩
    ⟨0, 0, none⟩ ⟨0, 0, none⟩ ⟨0, 0, none⟩
    [] [(⟨WM_MOUSEMOVE, ⟨6, 6⟩⟩, ⟨0, 0, none⟩)]
    ⟨⟨rfl, rfl⟩, by decide, by decide, rfl⟩
    (by intro p hp; cases hp)
    (by
      intro p hp
      rcases List.mem_singleton.mp hp with h
      subst h
      exact ⟨rfl, rfl⟩)
    rfl rfl
    ⟨⟨rfl, rfl⟩, by decide, by decide, rfl⟩

/-- C2: once woken, the worker first sleeps the dwell delay and re-queries the
cursor; it injects exactly when the re-queried position is inside the corner
(a failed query or an outside position injects nothing), injecting exactly
once; and the submitted sequence is exactly the 4 keyboard events Win-down,
Tab-down, Tab-up, Win-up. -/
theorem C2_worker_injects_iff_still_inside (d : Nat) (pos : Option POINT)
    (send : Nat) :
    (workerIter d pos send).take 2 = [WAct.sleep d, WAct.queryPos] ∧
    injectsOf (workerIter d pos send) =
      (if injOccurs pos then [HOT_CORNER_INPUT] else []) ∧
    HOT_CORNER_INPUT =
      [⟨VK_LWIN, 0, 0, 0, 0⟩, ⟨VK_TAB, 0, 0, 0, 0⟩,
       ⟨VK_TAB, 0, KEYEVENTF_KEYUP, 0, 0⟩, ⟨VK_LWIN, 0, KEYEVENTF_KEYUP, 0, 0⟩] := by
  refine ⟨rfl, ?_, rfl⟩
  cases pos with
  | none => rfl
  | some p =>
      by_cases hp : PtInRect HOT_CORNER p = true
      · by_cases hs : send = HOT_CORNER_INPUT.length
        · simp [workerIter, hot_corner_fn, injectsOf, injOccurs, hp, hs]
        · simp [workerIter, hot_corner_fn, injectsOf, injOccurs, hp, hs]
      · simp [workerIter, hot_corner_fn, injectsOf, injOccurs,
          Bool.not_eq_true _ ▸ hp]

/-- C3 counterexample: at dwell delay 100, cursor re-checked at (5,5) inside
the corner and all 4 events accepted, the worker trace is sleep, query,
inject, clear-flag, park — the flag is cleared immediately after the
injection, with no sleep action between the position check and the clear, so
no cool-down period exists. -/
theorem C3_no_cooldown_counterexample :
    workerIter 100 (some ⟨5, 5⟩) 4 =
      [WAct.sleep 100, WAct.queryPos, WAct.inject HOT_CORNER_INPUT,
       WAct.clearFlag, WAct.park] ∧
    sleepsOf (afterQuery (workerIter 100 (some ⟨5, 5⟩) 4)) = [] := by
  exact ⟨rfl, rfl⟩

/-- C3 amended: after its post-sleep check (and injection, if any), the worker
immediately clears the signal and parks again; the only sleep in a worker
iteration is the dwell delay before the position re-check, and no sleep occurs
between that re-check and the clear. -/
theorem C3_amended_clear_without_cooldown (d : Nat) (pos : Option POINT)
    (send : Nat) :
    sleepsOf (workerIter d pos send) = [d] ∧
    sleepsOf (afterQuery (workerIter d pos send)) = [] ∧
    (workerIter d pos send).reverse.take 2 = [WAct.park, WAct.clearFlag] := by
  cases pos with
  | none => exact ⟨rfl, rfl, rfl⟩
  | some p =>
      by_cases hp : PtInRect HOT_CORNER p = true
      · by_cases hs : send = HOT_CORNER_INPUT.length
        · refine ⟨?_, ?_, ?_⟩ <;>
            simp [workerIter, hot_corner_fn, sleepsOf, afterQuery, hp, hs]
        · refine ⟨?_, ?_, ?_⟩ <;>
            simp [workerIter, hot_corner_fn, sleepsOf, afterQuery, hp, hs]
      · refine ⟨?_, ?_, ?_⟩ <;>
          simp [workerIter, hot_corner_fn, sleepsOf, afterQuery, hp]

/-- C8: when the platform accepts fewer than the 4 submitted events, the
worker prints the diagnostic and continues — the trace is the normal one plus
the diagnostic, with exactly one injection (no retry), and the same clear-flag
and park tail as the fully-accepted case. -/
theorem C8_partial_injection_recoverable (d : Nat) (p : POINT) (send : Nat)
    (hin : PtInRect HOT_CORNER p = true)
    (hsend : send ≠ HOT_CORNER_INPUT.length) :
    workerIter d (some p) send =
      [WAct.sleep d, WAct.queryPos, WAct.inject HOT_CORNER_INPUT,
       WAct.diag "Failed to send input", WAct.clearFlag, WAct.park] ∧
    injectsOf (workerIter d (some p) send) = [HOT_CORNER_INPUT] ∧
    (workerIter d (some p) send).filter (fun a => !isDiag a) =
      workerIter d (some p) HOT_CORNER_INPUT.length := by
  have ht : workerIter d (some p) send =
      [WAct.sleep d, WAct.queryPos, WAct.inject HOT_CORNER_INPUT,
       WAct.diag "Failed to send input", WAct.clearFlag, WAct.park] := by
    simp [workerIter, hot_corner_fn, hin, hsend]
  refine ⟨ht, ?_, ?_⟩
  · rw [ht]; rfl
  · rw [ht]; simp [workerIter, hot_corner_fn, hin, isDiag]

/-- Witness for C8 at a concrete input: 3 of 4 events accepted. -/
theorem C8_partial_injection_recoverable_witness :
    workerIter 100 (some ⟨5, 5⟩) 3 =
      [WAct.sleep 100, WAct.queryPos, WAct.inject HOT_CORNER_INPUT,
       WAct.diag "Failed to send input", WAct.clearFlag, WAct.park] ∧
    injectsOf (workerIter 100 (some ⟨5, 5⟩) 3) = [HOT_CORNER_INPUT] ∧
    (workerIter 100 (some ⟨5, 5⟩) 3).filter (fun a => !isDiag a) =
      workerIter 100 (some ⟨5, 5⟩) HOT_CORNER_INPUT.length :=
  C8_partial_injection_recoverable 100 ⟨5, 5⟩ 3 rfl (by decide)

/-- C9: a configuration with delay 250 makes the worker sleep 250 ms before
its position re-check, and a configuration with no delay makes it sleep the
100 ms default. -/
theorem C9_configured_dwell_delay (c : Config) (pos : Option POINT) (send : Nat) :
    (c.delay = some 250 →
      (workerIter (effectiveDelay c) pos send).head? = some (WAct.sleep 250)) ∧
    (c.delay = none →
      (workerIter (effectiveDelay c) pos send).head? =
        some (WAct.sleep HOT_DELAY_INIT)) := by
  constructor <;> intro h <;> simp [effectiveDelay, h, workerIter, hot_corner_fn]

/-- Witness for C9 at concrete configurations. -/
theorem C9_configured_dwell_delay_witness :
    (workerIter (effectiveDelay ⟨some 250⟩) none 0).head? =
      some (WAct.sleep 250) ∧
    (workerIter (effectiveDelay ⟨none⟩) none 0).head? =
      some (WAct.sleep HOT_DELAY_INIT) :=
  ⟨(C9_configured_dwell_delay ⟨some 250⟩ none 0).1 rfl,
   (C9_configured_dwell_delay ⟨none⟩ none 0).2 rfl⟩

/-- One system step from a state with `STILL_HOT` set, where any processed
event is either not a movement or lies inside the region, keeps `STILL_HOT`
set and produces no raise. -/
theorem sysStep_hot_no_raise (s : SysState) (a : SysAction)
    (hs : s.stillHot = true)
    (ha : ∀ e os, a = SysAction.evt e os → e.wmEvt = WM_MOUSEMOVE →
      PtInRect HOT_CORNER e.pt = true) :
    (sysStep s a).1.stillHot = true ∧ Label.raise ∉ (sysStep s a).2 := by
  cases a with
  | evt e os =>
      by_cases hm : e.wmEvt = WM_MOUSEMOVE
      · have hin := ha e os rfl hm
        have hcb := hook_inside_hot e os ⟨true, s.flag⟩ hm hin rfl
        simp [sysStep, hs, hcb]
      · have hcb := hook_not_move e os ⟨true, s.flag⟩ hm
        simp [sysStep, hs, hcb]
  | wake =>
      simp only [sysStep]
      split <;> simp [hs]
  | finish pos send =>
      simp only [sysStep]
      split
      · by_cases hi : injOccurs pos = true <;> simp [hs, hi]
      · simp [hs]

/-- C5 counterexample: starting from the initial system state (cold, flag
clear, worker parked), the schedule enter-exit-enter with the worker never
scheduled is a reachable interleaving in which the detector raises the signal
twice with no intervening clear by the worker. -/
theorem C5_counterexample_raise_before_clear :
    (sysRun ⟨false, false, false⟩
      [SysAction.evt ⟨WM_MOUSEMOVE, ⟨5, 5⟩⟩ ⟨0, 0, none⟩,
       SysAction.evt ⟨WM_MOUSEMOVE, ⟨100, 100⟩⟩ ⟨0, 0, none⟩,
       SysAction.evt ⟨WM_MOUSEMOVE, ⟨5, 5⟩⟩ ⟨0, 0, none⟩]).2 =
      [Label.raise, Label.raise] ∧
    raiseUnclearedAgain false
      (sysRun ⟨false, false, false⟩
        [SysAction.evt ⟨WM_MOUSEMOVE, ⟨5, 5⟩⟩ ⟨0, 0, none⟩,
         SysAction.evt ⟨WM_MOUSEMOVE, ⟨100, 100⟩⟩ ⟨0, 0, none⟩,
         SysAction.evt ⟨WM_MOUSEMOVE, ⟨5, 5⟩⟩ ⟨0, 0, none⟩]).2 = true := by
  exact ⟨rfl, rfl⟩

/-- C5 amended: the pending signal is a single boolean, and repeated raises
coalesce rather than queue; a raise leaves `STILL_HOT` set, and while
`STILL_HOT` is set no further raise occurs under any interleaving of worker
steps with movement events that stay inside the region (or non-movement
events) — a second raise requires the cursor to be observed outside the
region, and can then happen before the worker clears the signal. -/
theorem C5_amended_no_reraise_until_exit :
    (∀ (e : MouseEvent) (os : OsState) (s : DetectorState),
      (mouse_hook_callback e os s).raised = true →
        (mouse_hook_callback e os s).state.stillHot = true) ∧
    (∀ (s : SysState) (acts : List SysAction), s.stillHot = true →
      (∀ a ∈ acts, ∀ e os, a = SysAction.evt e os → e.wmEvt = WM_MOUSEMOVE →
        PtInRect HOT_CORNER e.pt = true) →
      Label.raise ∉ (sysRun s acts).2) := by
  constructor
  · intro e os s
    unfold mouse_hook_callback
    split
    · intro h; exact absurd h (by simp)
    split
    · intro h; exact absurd h (by simp)
    split
    · intro h; exact absurd h (by simp)
    split
    · intro h; exact absurd h (by simp)
    split
    · intro h; exact absurd h (by simp)
    · intro _; rfl
  · intro s acts
    induction acts generalizing s with
    | nil => intro _ _; simp [sysRun]
    | cons a rest ih =>
        intro hs hall
        obtain ⟨hkeep, hnoraise⟩ :=
          sysStep_hot_no_raise s a hs (hall a (List.mem_cons_self _ _))
        have hrest := ih (sysStep s a).1 hkeep
          fun a' h' => hall a' (List.mem_cons_of_mem _ h')
        simp only [sysRun, List.mem_append]
        rintro (h | h)
        · exact hnoraise h
        · exact hrest h

/-- Witness for C5 amended at concrete inputs: a raise at (5,5) sets
`STILL_HOT`, and from a hot state with the flag pending, an inside movement
plus a full worker wake/finish cycle produce no raise. -/
theorem C5_amended_no_reraise_until_exit_witness :
    (mouse_hook_callback ⟨WM_MOUSEMOVE, ⟨5, 5⟩⟩ ⟨0, 0, none⟩
      ⟨false, false⟩).state.stillHot = true ∧
    Label.raise ∉
      (sysRun ⟨true, true, false⟩
        [SysAction.evt ⟨WM_MOUSEMOVE, ⟨6, 6⟩⟩ ⟨0, 0, none⟩,
         SysAction.wake, SysAction.finish (some ⟨6, 6⟩) 4]).2 := by
  constructor
  · exact C5_amended_no_reraise_until_exit.1 _ _ _ rfl
  · refine C5_amended_no_reraise_until_exit.2 ⟨true, true, false⟩ _ rfl ?_
    intro a ha e os hae hm
    rcases ha with _ | ⟨_, ha⟩
    · injection hae with h1 h2
      subst h1
      rfl
    · rcases ha with _ | ⟨_, ha⟩
      · simp at hae
      · rcases ha with _ | ⟨_, ha⟩
        · simp at hae
        · cases ha

/-- C10: an unreadable or unparsable configuration aborts startup before the
mouse hook or exit hotkey is registered; the 100 ms default is in effect only
when the file reads and parses successfully and merely omits the delay
field — in which case startup proceeds to register the hook and hotkey. -/
theorem C10_config_failure_aborts_startup (readResult : Except String String)
    (parseResult : String → Except String Config) :
    (∀ msg, readResult = Except.error msg →
      mainStartup readResult parseResult =
        [StartupStep.initFlag, StartupStep.spawnWorker, StartupStep.abortStep msg] ∧
      StartupStep.setHook ∉ mainStartup readResult parseResult ∧
      StartupStep.regHotkey ∉ mainStartup readResult parseResult) ∧
    (∀ s msg, readResult = Except.ok s → parseResult s = Except.error msg →
      mainStartup readResult parseResult =
        [StartupStep.initFlag, StartupStep.spawnWorker, StartupStep.abortStep msg] ∧
      StartupStep.setHook ∉ mainStartup readResult parseResult ∧
      StartupStep.regHotkey ∉ mainStartup readResult parseResult) ∧
    (∀ s cfg, readResult = Except.ok s → parseResult s = Except.ok cfg →
      cfg.delay = none →
      effectiveDelay cfg = 100 ∧
      mainStartup readResult parseResult =
        [StartupStep.initFlag, StartupStep.spawnWorker, StartupStep.setHook,
         StartupStep.regHotkey, StartupStep.runLoop]) := by
  refine ⟨?_, ?_, ?_⟩
  · intro msg h
    subst h
    exact ⟨rfl, by simp [mainStartup], by simp [mainStartup]⟩
  · intro s msg h1 h2
    subst h1
    refine ⟨?_, ?_, ?_⟩ <;> simp [mainStartup, h2]
  · intro s cfg h1 h2 h3
    subst h1
    exact ⟨by simp [effectiveDelay, h3, HOT_DELAY_INIT],
      by simp [mainStartup, h2, h3]⟩

/-- Witness for C10 at concrete inputs: an unreadable file, a malformed file,
and a well-formed file with no delay field. -/
theorem C10_config_failure_aborts_startup_witness :
    (mainStartup (Except.error "nofile") (fun _ => Except.ok ⟨none⟩) =
      [StartupStep.initFlag, StartupStep.spawnWorker,
       StartupStep.abortStep "nofile"] ∧
     StartupStep.setHook ∉
       mainStartup (Except.error "nofile") (fun _ => Except.ok ⟨none⟩) ∧
     StartupStep.regHotkey ∉
       mainStartup (Except.error "nofile") (fun _ => Except.ok ⟨none⟩)) ∧
    (mainStartup (Except.ok "x") (fun _ => Except.error "badtoml") =
      [StartupStep.initFlag, StartupStep.spawnWorker,
       StartupStep.abortStep "badtoml"] ∧
     StartupStep.setHook ∉
       mainStartup (Except.ok "x") (fun _ => Except.error "badtoml") ∧
     StartupStep.regHotkey ∉
       mainStartup (Except.ok "x") (fun _ => Except.error "badtoml")) ∧
    (effectiveDelay ⟨none⟩ = 100 ∧
     mainStartup (Except.ok "x") (fun _ => Except.ok ⟨none⟩) =
      [StartupStep.initFlag, StartupStep.spawnWorker, StartupStep.setHook,
       StartupStep.regHotkey, StartupStep.runLoop]) :=
  ⟨(C10_config_failure_aborts_startup (Except.error "nofile")
      (fun _ => Except.ok ⟨none⟩)).1 "nofile" rfl,
   (C10_config_failure_aborts_startup (Except.ok "x")
      (fun _ => Except.error "badtoml")).2.1 "x" "badtoml" rfl rfl,
   (C10_config_failure_aborts_startup (Except.ok "x")
      (fun _ => Except.ok ⟨none⟩)).2.2 "x" ⟨none⟩ rfl rfl rfl⟩
